/-
Verification of the knowledge-gated exploration engine.

This file gives a shallow embedding, in Lean 4, of the core state and
operations of the repository (loop manager, knowledge menu, POI system,
quantum navigator, quantum system, orchestrator reset block), and proves
or refutes the frozen claims about them.

Conventions used throughout:
* Python `set` objects are modelled as `Finset String`.
* Python `dict` objects that are mutated are modelled as association
  lists `List (String × α)` (lookup finds the first matching key, as a
  dict with unique keys would).
* Randomness is modelled by passing an extra `Nat` draw `k` to the
  operation; a uniform choice from a list `l` is `l[k % l.length]`, so
  quantifying over `k` ranges over all possible draws and every list
  element is hit by exactly one residue class.
* A Python statement that can raise an uncaught exception is modelled by
  an `Option` result, with `none` for the raising execution.
-/
import Mathlib

set_option autoImplicit false

namespace OuterWilds

/-! ## Association-list helpers (model of Python dict access) -/

/-- First-match lookup in an association list (Python `d.get(k)` /
`d[k]` on a dict, whose keys are unique). -/
def alistFind {α : Type} (l : List (String × α)) (k : String) : Option α :=
  match l with
  | [] => none
  | (k2, v) :: rest => if k2 = k then some v else alistFind rest k

/-- Write-through update of an association list (Python `d[k] = v` /
in-place mutation of the stored object). Every pair whose key is `k`
is overwritten. -/
def alistSet {α : Type} (l : List (String × α)) (k : String) (v : α) :
    List (String × α) :=
  l.map fun p => if p.1 = k then (p.1, v) else p

/-- Lookup with default (Python `d.get(k, d0)`). -/
def alistFindD {α : Type} (l : List (String × α)) (k : String) (d0 : α) : α :=
  (alistFind l k).getD d0

/-! ## String helpers (models of the Python `str` methods used) -/

/-- Python `s.split(sep)` for a one-character separator, on the
character list: `"a.b"` splits at every separator occurrence, keeping
empty pieces. -/
def split_on_char (sep : Char) : List Char → List (List Char)
  | [] => [[]]
  | c :: rest =>
    let r := split_on_char sep rest
    if c = sep then [] :: r
    else
      match r with
      | [] => [[c]]
      | h :: t => (c :: h) :: t

/-- Python `s.split(sep)` for a one-character separator. -/
def str_split (s : String) (sep : Char) : List String :=
  (split_on_char sep s.data).map fun w => String.mk w

/-- Python `s.lower()`. -/
def str_lower (s : String) : String :=
  String.mk (s.data.map Char.toLower)

/-- Python `s.strip()`. -/
def str_strip (s : String) : String :=
  String.mk (((s.data.dropWhile Char.isWhitespace).reverse.dropWhile
    Char.isWhitespace).reverse)

/-- Python `s.replace(a, b)` for one-character patterns. -/
def replace_char (s : String) (a b : Char) : String :=
  String.mk (s.data.map fun c => if c = a then b else c)

/-! ## LoopManager (src/loop_manager.py) -/

/-- The value returned by `LoopManager.increment_action`:
`"quantum_cavern_collapse"`, `"supernova"`, or `False`. -/
inductive LoopSignal where
  | quantumCavernCollapse
  | supernova
  | noSignal
  deriving DecidableEq, Repr

/-- State of `LoopManager` (console/visualizer handles omitted;
`minutes_per_action` is the constant 1 and only feeds display strings). -/
structure LoopManagerState where
  actions_until_supernova : Nat
  current_actions : Nat
  loop_count : Nat
  is_first_loop : Bool
  cavern_has_collapsed : Bool
  deriving DecidableEq, Repr

/-- `LoopManager.__init__` (default `actions_until_supernova = 22`). -/
def LoopManagerState.init (actionsUntilSupernova : Nat) : LoopManagerState :=
  { actions_until_supernova := actionsUntilSupernova
    current_actions := 0
    loop_count := 1
    is_first_loop := true
    cavern_has_collapsed := false }

/-- `LoopManager.increment_action(action_cost)`.

Adds the cost to the counter; if the counter is now exactly 14 and the
collapse flag is unset, sets the flag and returns the collapse signal
(returning early, before the supernova test); otherwise returns
`supernova` when the counter is at or past `actions_until_supernova`.
The 18/22 warning only prints and changes no state, so it is not
modelled. Action costs at every call site are positive (`1` or the
landing cost `2`), so the cost is a `Nat`. -/
def increment_action (st : LoopManagerState) (action_cost : Nat) :
    LoopSignal × LoopManagerState :=
  let st1 := { st with current_actions := st.current_actions + action_cost }
  if st1.current_actions = 14 ∧ st1.cavern_has_collapsed = false then
    (LoopSignal.quantumCavernCollapse, { st1 with cavern_has_collapsed := true })
  else if st1.actions_until_supernova ≤ st1.current_actions then
    (LoopSignal.supernova, st1)
  else
    (LoopSignal.noSignal, st1)

/-- Run a sequence of `increment_action` calls, collecting the returned
signals in order. -/
def runSignals (st : LoopManagerState) : List Nat → List LoopSignal
  | [] => []
  | c :: cs =>
    let r := increment_action st c
    r.1 :: runSignals r.2 cs

/-- Final state after a sequence of `increment_action` calls. -/
def runState (st : LoopManagerState) : List Nat → LoopManagerState
  | [] => st
  | c :: cs => runState (increment_action st c).2 cs

/-! ## Static location data (content/data/locations.json, read-only after load) -/

/-- Raw entry description from the location data (the dict fields read by
`KnowledgeMenu` and the orchestrator; absent optional fields are the
Python `.get` defaults baked in at parse time). -/
structure EntryData where
  title : String
  entry_type : String
  format_type : String
  quantum : Bool
  knowledge_grants : List String
  adds_to_log : Bool
  importance : String
  short_desc : String
  appears_after : List String
  key_info : String
  requires_knowledge : List String
  requires_dialogue_count : Nat
  requires_exploration_percentage : ℚ
  deriving DecidableEq

/-- Raw POI description from the location data. -/
structure POIData where
  name : String
  connections : List String
  distance_to : List (String × Nat)
  entries : List String
  npcs : List String
  has_ship : Bool
  deriving DecidableEq

/-- Raw location description from the location data. -/
structure LocationInfo where
  name : String
  starting_poi : Option String
  points_of_interest : List (String × POIData)
  entries : List (String × EntryData)
  requires_knowledge : List String
  always_accessible : Bool
  deriving DecidableEq

/-- The loaded location data (`location_data["locations"]`). -/
structure LocationData where
  locations : List (String × LocationInfo)
  deriving DecidableEq

/-! ## KnowledgeMenu (src/knowledge_menu.py) -/

/-- `KnowledgeEntry` dataclass. -/
structure KnowledgeEntry where
  entry_id : String
  location_id : String
  title : String
  entry_type : String
  format_type : String
  is_quantum : Bool
  knowledge_grants : List String
  discovered : Bool
  discovered_loop : Nat
  importance : String
  short_desc : String
  adds_to_log : Bool
  appears_after : List String
  key_info : String
  deriving DecidableEq, Repr

/-- `KnowledgeProgress` dataclass. -/
structure KnowledgeProgress where
  entries_discovered : Finset String
  knowledge_gained : Finset String
  locations_visited : Finset String
  current_loop : Nat
  total_visits : Nat
  dialogue_topics_asked : Nat
  new_entries_since_last_view : Nat
  discovered_commands : Finset String
  deriving DecidableEq

/-- `KnowledgeProgress.has_knowledge`. -/
def has_knowledge (p : KnowledgeProgress) (knowledge_id : String) : Bool :=
  decide (knowledge_id ∈ p.knowledge_gained)

/-- `KnowledgeProgress.has_all_knowledge`. -/
def has_all_knowledge (p : KnowledgeProgress) (knowledge_ids : List String) : Bool :=
  knowledge_ids.all fun k => decide (k ∈ p.knowledge_gained)

/-- `KnowledgeProgress.get_completion_percentage`. -/
def get_completion_percentage (p : KnowledgeProgress) (total_entries : Nat) : ℚ :=
  if total_entries = 0 then 0
  else (p.entries_discovered.card : ℚ) / total_entries * 100

/-- `KnowledgeProgress.add_entry(entry, loop)`: returns the `was_new`
flag together with the updated progress and the updated (in Python:
mutated in place) entry object. -/
def add_entry (p : KnowledgeProgress) (entry : KnowledgeEntry) (loop : Nat) :
    Bool × KnowledgeProgress × KnowledgeEntry :=
  if entry.entry_id ∈ p.entries_discovered then
    (false, p, entry)
  else
    (true,
     { p with
        entries_discovered := insert entry.entry_id p.entries_discovered
        knowledge_gained :=
          entry.knowledge_grants.foldl (fun s k => insert k s) p.knowledge_gained
        new_entries_since_last_view := p.new_entries_since_last_view + 1 },
     { entry with discovered := true, discovered_loop := loop })

/-- State of `KnowledgeMenu` (console handle omitted). `all_entries` is
the registration dict, `location_data` the raw data installed by
`register_entries`. -/
structure KnowledgeMenuState where
  progress : KnowledgeProgress
  all_entries : List (String × KnowledgeEntry)
  location_data : LocationData
  deriving DecidableEq

/-- `KnowledgeMenu.register_entries(location_data)`: builds the
`all_entries` dict from the static data, skipping entries with
`adds_to_log` false. -/
def register_entries (st : KnowledgeMenuState) (ld : LocationData) : KnowledgeMenuState :=
  { st with
      location_data := ld
      all_entries :=
        ld.locations.foldl
          (fun acc loc =>
            loc.2.entries.foldl
              (fun acc2 ent =>
                if ent.2.adds_to_log then
                  acc2 ++ [(loc.1 ++ "." ++ ent.1,
                    { entry_id := loc.1 ++ "." ++ ent.1
                      location_id := loc.1
                      title := ent.2.title
                      entry_type := ent.2.entry_type
                      format_type := ent.2.format_type
                      is_quantum := ent.2.quantum
                      knowledge_grants := ent.2.knowledge_grants
                      discovered := false
                      discovered_loop := 0
                      importance := ent.2.importance
                      short_desc := ent.2.short_desc
                      adds_to_log := ent.2.adds_to_log
                      appears_after := ent.2.appears_after
                      key_info := ent.2.key_info : KnowledgeEntry })]
                else acc2)
              acc)
          st.all_entries }

/-- `KnowledgeMenu.discover_entry(entry_id)`: returns `was_new` and the
updated state. -/
def discover_entry (st : KnowledgeMenuState) (entry_id : String) :
    Bool × KnowledgeMenuState :=
  match alistFind st.all_entries entry_id with
  | none => (false, st)
  | some entry =>
    let r := add_entry st.progress entry st.progress.current_loop
    (r.1,
     { st with
        progress := r.2.1
        all_entries := alistSet st.all_entries entry_id r.2.2 })

/-- `KnowledgeMenu._get_entry_data(entry_id)`. -/
def get_entry_data (st : KnowledgeMenuState) (entry_id : String) : Option EntryData :=
  match str_split entry_id '.' with
  | [loc_id, ent_id] =>
    match alistFind st.location_data.locations loc_id with
    | none => none
    | some li => alistFind li.entries ent_id
  | _ => none

/-- `KnowledgeMenu.can_access_entry(entry_id)`: `(can_access, reason)`. -/
def can_access_entry (st : KnowledgeMenuState) (entry_id : String) : Bool × String :=
  match alistFind st.all_entries entry_id with
  | none => (false, "Something\x27s missing...")
  | some _ =>
    match get_entry_data st entry_id with
    | none => (false, "Can\x27t find what you\x27re looking for...")
    | some ed =>
      if ed.requires_knowledge ≠ [] ∧
          has_all_knowledge st.progress ed.requires_knowledge = false then
        let missing := ed.requires_knowledge.filter
          fun k => has_knowledge st.progress k = false
        if "quantum_stabilization_ability" ∈ missing then
          (false, "QUANTUM TEXT - You need to learn stabilization")
        else if "ship_operation" ∈ missing then
          (false, "You need to access the ship first")
        else
          (false, "Not yet... (" ++
            String.intercalate ", "
              (missing.map fun k => replace_char k '_' ' ') ++ ")")
      else if 0 < ed.requires_dialogue_count ∧
          st.progress.dialogue_topics_asked < ed.requires_dialogue_count then
        (false, "Talk more with Solanum first (" ++
          toString (ed.requires_dialogue_count - st.progress.dialogue_topics_asked) ++
          " questions)")
      else if 0 < ed.requires_exploration_percentage ∧
          get_completion_percentage st.progress st.all_entries.length / 100 <
            ed.requires_exploration_percentage then
        (false, "Explore more before this reveals itself (" ++
          toString (Int.floor ((ed.requires_exploration_percentage -
            get_completion_percentage st.progress st.all_entries.length / 100) * 100)) ++
          "% needed)")
      else
        (true, "")

/-- `KnowledgeMenu._should_entry_appear(entry)`: all `appears_after`
prerequisites are met. -/
def should_entry_appear (st : KnowledgeMenuState) (entry : KnowledgeEntry) : Bool :=
  entry.appears_after.all fun knowledge_id => has_knowledge st.progress knowledge_id

/-- `KnowledgeMenu._get_visible_entries()`: entries shown in rumor mode.
Every entry must pass the `appears_after` gate; among those, an entry is
shown when it is accessible or already discovered. -/
def get_visible_entries (st : KnowledgeMenuState) : List KnowledgeEntry :=
  (st.all_entries.map Prod.snd).filter fun entry =>
    should_entry_appear st entry &&
      ((can_access_entry st entry.entry_id).1 || entry.discovered)

/-- `KnowledgeMenu.increment_loop()`. -/
def increment_loop (st : KnowledgeMenuState) : KnowledgeMenuState :=
  { st with progress := { st.progress with current_loop := st.progress.current_loop + 1 } }

/-- `KnowledgeMenu.add_knowledge(knowledge_id)` for a single token. -/
def add_knowledge (st : KnowledgeMenuState) (knowledge_id : String) : KnowledgeMenuState :=
  { st with progress :=
      { st.progress with knowledge_gained := insert knowledge_id st.progress.knowledge_gained } }

/-! ## POISystem (src/poi_system.py) -/

/-- State of `POISystem` (console handle and the shared read-only
`location_data` omitted; the data is passed to each operation). -/
structure POIState where
  current_location : String
  current_poi : String
  in_ship : Bool
  ship_flying : Bool
  discovered_pois : Finset String
  visited_pois : Finset String
  deriving DecidableEq

/-- `POISystem.get_current_poi_data()`; `none` models the empty dict
returned when the location or POI is missing. -/
def get_current_poi_data (ld : LocationData) (st : POIState) : Option POIData :=
  match alistFind ld.locations st.current_location with
  | none => none
  | some li => alistFind li.points_of_interest st.current_poi

/-- `.get("connections", [])` on the (possibly empty) POI data dict. -/
def poi_connections : Option POIData → List String
  | none => []
  | some pd => pd.connections

/-- `.get("distance_to", {}).get(poi_id, 1)` on the POI data dict. -/
def poi_distance_to (pd : Option POIData) (poi_id : String) : Nat :=
  match pd with
  | none => 1
  | some pd => alistFindD pd.distance_to poi_id 1

/-- `POISystem.move_to_poi(poi_id)`: returns
`(success, action_cost, message)` and the updated state. An unreachable
target fails before any state is touched. -/
def move_to_poi (ld : LocationData) (st : POIState) (poi_id : String) :
    (Bool × Nat × String) × POIState :=
  let connections := poi_connections (get_current_poi_data ld st)
  if poi_id ∉ connections then
    ((false, 0, "You can\x27t reach " ++ poi_id ++ " from here."), st)
  else
    let distance := poi_distance_to (get_current_poi_data ld st) poi_id
    let full_poi_id := st.current_location ++ "." ++ poi_id
    let st2 := { st with
                  current_poi := poi_id
                  discovered_pois := insert full_poi_id st.discovered_pois
                  visited_pois := insert full_poi_id st.visited_pois }
    let poi_name :=
      match alistFind ld.locations st.current_location with
      | none => poi_id
      | some li =>
        match alistFind li.points_of_interest poi_id with
        | none => poi_id
        | some pd => pd.name
    ((true, distance, "You travel to " ++ poi_name ++ "..."), st2)

/-- `POISystem._initialize_starting_position()`: places the player at
the starting POI of the current location and marks it discovered and
visited. `none` models the `KeyError` raised when the current location
is not in the data. -/
def initialize_starting_position (ld : LocationData) (st : POIState) : Option POIState :=
  match alistFind ld.locations st.current_location with
  | none => none
  | some loc_data =>
    let poi := loc_data.starting_poi.getD "village_center"
    let full_poi_id := st.current_location ++ "." ++ poi
    some { st with
            current_poi := poi
            discovered_pois := insert full_poi_id st.discovered_pois
            visited_pois := insert full_poi_id st.visited_pois }

/-! ## QuantumNavigator (src/quantum_navigation.py) -/

/-- State of `QuantumNavigator` (console handle and the static location
descriptions omitted). -/
structure NavState where
  current_location : String
  has_visited_platform : Bool
  deriving DecidableEq, Repr

/-- The `stable_path` dict of each navigation location: the single
deterministic cardinal edge (empty for `convergence`). -/
def stable_path : String → List (String × String)
  | "platform" => [("east", "crystals")]
  | "crystals" => [("west", "tree")]
  | "tree" => [("north", "arch")]
  | "arch" => [("south", "convergence")]
  | _ => []

/-- The `name` of each navigation location. -/
def location_name : String → String
  | "platform" => "Weathered Stone Platform"
  | "crystals" => "Singing Crystal Field"
  | "tree" => "Ancient Tree Grove"
  | "arch" => "Prismatic Archway"
  | "convergence" => "Quantum Convergence"
  | l => l

/-- The `direction_map` dict of `observe_direction`. -/
def direction_map (s : String) : Option String :=
  alistFind
    [("look east", "east"), ("east", "east"),
     ("look west", "west"), ("west", "west"),
     ("look north", "north"), ("north", "north"),
     ("look south", "south"), ("south", "south"),
     ("close eyes", "close eyes")] s

/-- Python `list.remove(a)`: drops the first occurrence, `none` models
the `ValueError` raised when `a` is absent. -/
def list_remove (l : List String) (a : String) : Option (List String) :=
  match l with
  | [] => none
  | x :: xs => if x = a then some xs else (list_remove xs a).map (x :: ·)

/-- `QuantumNavigator._reach_grove()`. -/
def reach_grove (st : NavState) : (Bool × String × Bool) × NavState :=
  ((true, "You\x27ve reached Solanum\x27s Grove!", true),
   { st with current_location := "grove" })

/-- `QuantumNavigator.close_eyes_reset()`. -/
def close_eyes_reset (st : NavState) : (Bool × String × Bool) × NavState :=
  if st.current_location = "convergence" then
    reach_grove st
  else
    ((true,
      "You close your eyes. When you open them, you\x27re back at the weathered platform.",
      false),
     { st with has_visited_platform := true, current_location := "platform" })

/-- `QuantumNavigator.observe_direction(direction)`.

The extra argument `k` is the random draw backing `random.choice`: the
chosen element is `possible_locations[k % len]`, so quantifying over `k`
ranges over every possible uniform outcome. The overall result is
`none` exactly when the Python code raises an uncaught exception
(`list.remove` with an absent element). -/
def observe_direction (st : NavState) (direction : String) (k : Nat) :
    Option ((Bool × String × Bool) × NavState) :=
  let direction_clean := str_strip (str_lower direction)
  match direction_map direction_clean with
  | none => some ((false, "Invalid direction.", false), st)
  | some canonical_dir =>
    if st.current_location = "grove" then
      some ((true, "You\x27re already at the grove.", true), st)
    else if canonical_dir = "close eyes" then
      some (close_eyes_reset st)
    else
      match alistFind (stable_path st.current_location) canonical_dir with
      | some next_location =>
        some ((true,
               "The quantum waveform shifts. You find yourself at: " ++
                 location_name next_location,
               false),
              { st with current_location := next_location })
      | none =>
        match list_remove ["platform", "crystals", "tree", "arch"] st.current_location with
        | none => none
        | some possible_locations =>
          let random_location :=
            possible_locations.getD (k % possible_locations.length) ""
          some ((true, "Quantum teleport to " ++ location_name random_location, false),
                { st with
                    current_location := random_location
                    has_visited_platform :=
                      if random_location = "platform" then true
                      else st.has_visited_platform })

/-- `QuantumNavigator.reset_navigation()`. -/
def reset_navigation (st : NavState) : NavState :=
  { st with current_location := "platform" }

/-! ## QuantumSystem (src/quantum_system.py) -/

/-- The support of `QuantumSystem._get_new_state(old_state)`: the list
the uniform draw is taken from. For `old_state = 0` the draw is
`random.randint(1, 6)` over `[1..6]`; otherwise it is `random.choice`
over `[s for s in range(1, 7) if s != old_state]`. -/
def get_new_state_choices (old_state : Nat) : List Nat :=
  if old_state = 0 then [1, 2, 3, 4, 5, 6]
  else (List.range' 1 6).filter fun s => s ≠ old_state

/-- `QuantumSystem._get_new_state(old_state)` with the random draw `k`
made explicit: the chosen element is `choices[k % len]`, so quantifying
over `k` ranges over every possible uniform outcome. -/
def get_new_state (old_state : Nat) (k : Nat) : Nat :=
  let valid_states := get_new_state_choices old_state
  valid_states.getD (k % valid_states.length) 0

/-- `QuantumSystem.get_entry_state(full_entry_id)`: state 1-6, or 0 if
never observed. -/
def get_entry_state (quantum_states : List (String × Nat)) (full_entry_id : String) : Nat :=
  alistFindD quantum_states full_entry_id 0

/-! ## Deterministic scramble (QuantumSystem.scramble_text and
ContentLoader._scramble_text, identical line-scrambling cores) -/

/-- One step of the pseudo-random generator backing
`random.Random(seed)`. The Python generator (a Mersenne twister) is
modelled by a 64-bit linear congruential generator; what the program
relies on — the generator is a pure function of its seed, so every draw
sequence is reproducible — is preserved exactly. -/
def rng_next (s : Nat) : Nat :=
  (6364136223846793005 * s + 1442695040888963407) % (2 ^ 64)

/-- Draw an index below `bound` and return the advanced generator. -/
def rng_below (s : Nat) (bound : Nat) : Nat × Nat :=
  let s2 := rng_next s
  (s2 % bound, s2)

/-- Swap two positions of a list (out-of-range indices leave it
unchanged; the shuffle only uses in-range indices). -/
def list_swap (l : List String) (i j : Nat) : List String :=
  match l.get? i, l.get? j with
  | some a, some b => (l.set i b).set j a
  | _, _ => l

/-- Fisher-Yates walk of `random.Random.shuffle`, from position `i + 1`
(first call: the last position) down to position 1. -/
def shuffle_aux (l : List String) (i : Nat) (s : Nat) : List String × Nat :=
  match i with
  | 0 => (l, s)
  | n + 1 =>
    let r := rng_below s (n + 2)
    shuffle_aux (list_swap l (n + 1) r.1) n r.2

/-- `rng.shuffle(words)`: deterministic in the generator state, which is
threaded through and returned. -/
def rng_shuffle (l : List String) (s : Nat) : List String × Nat :=
  match l.length with
  | 0 => (l, s)
  | n + 1 => shuffle_aux l n s

/-- Python `line.split()`: whitespace-separated words, no empties. -/
def split_words (line : String) : List String :=
  (str_split line ' ').filter fun w => w ≠ ""

/-- The per-line loop shared by `QuantumSystem.scramble_text` and
`ContentLoader._scramble_text`: a line with words is word-shuffled by
the seeded generator (whose state carries across lines), an empty line
is preserved. -/
def scramble_lines (lines : List String) (s : Nat) : List String × Nat :=
  match lines with
  | [] => ([], s)
  | line :: rest =>
    if split_words line ≠ [] then
      let r := rng_shuffle (split_words line) s
      let r2 := scramble_lines rest r.2
      ((String.intercalate " " r.1) :: r2.1, r2.2)
    else
      let r2 := scramble_lines rest s
      (line :: r2.1, r2.2)

/-- The common scrambling core: split into lines, seed the generator
with the numeric state, scramble each line, re-join. -/
def scramble_core (content : String) (state : Nat) : String :=
  String.intercalate "\n" (scramble_lines (str_split content '\n') state).1

/-- `QuantumSystem.scramble_text(content, state)`: state 6 returns the
original text, any other state returns the seeded scramble. -/
def scramble_text (content : String) (state : Nat) : String :=
  if state = 6 then content else scramble_core content state

/-- `ContentLoader._display_from_file` content transformation: scrambles
exactly when a quantum state other than 6 is passed. -/
def load_and_display_content (content : String) (quantum_state : Option Nat) : String :=
  match quantum_state with
  | none => content
  | some q => if q ≠ 6 then scramble_core content q else content

/-! ## Orchestrator (src/new_orchestrator.py) -/

/-- What `_read_entry` hands to the player and the log. -/
structure ReadResult where
  displayed : String
  was_new : Bool
  deriving DecidableEq

/-- The quantum branch of `OuterWildsOrchestrator._read_entry`: at state
6 the entry is discovered (knowledge granted when newly discovered) and
shown unscrambled; at any other state the scrambled view is shown and
`discover_entry` is not called. -/
def read_entry_quantum (st : KnowledgeMenuState) (quantum_states : List (String × Nat))
    (full_id : String) (entry_data : EntryData) (content : String) :
    ReadResult × KnowledgeMenuState :=
  let quantum_state := get_entry_state quantum_states full_id
  if quantum_state = 6 then
    let r := discover_entry st full_id
    let st2 :=
      if r.1 then entry_data.knowledge_grants.foldl (fun s k => add_knowledge s k) r.2
      else r.2
    ({ displayed := load_and_display_content content (some 6), was_new := r.1 }, st2)
  else
    ({ displayed := load_and_display_content content (some quantum_state),
       was_new := false }, st)

/-- The orchestrator-owned state the supernova reset block touches,
plus the per-entry quantum state map (owned by `QuantumSystem`). -/
structure GameState where
  location_data : LocationData
  loop_manager : LoopManagerState
  knowledge_menu : KnowledgeMenuState
  poi : POIState
  navigator : NavState
  quantum_states : List (String × Nat)
  quantum_frequency_entered : Bool
  launch_code_entered : Bool
  eyes_closed : Bool
  eyes_closed_at_location : Option String
  deriving DecidableEq

/-- The state effect of `LoopManager.trigger_supernova(knowledge_menu)`:
the narrative sequences only print, then the action counter zeroes, the
collapse flag clears, both loop counters increment. -/
def trigger_supernova (lm : LoopManagerState) (km : KnowledgeMenuState) :
    LoopManagerState × KnowledgeMenuState :=
  ({ lm with
      is_first_loop := false
      current_actions := 0
      cavern_has_collapsed := false
      loop_count := lm.loop_count + 1 },
   increment_loop km)

/-- The supernova reset block of
`OuterWildsOrchestrator._exploration_loop` (run when `increment_action`
returns the supernova signal): `trigger_supernova`, return the POI
system to Timber Hearth with ship flags cleared, reset the quantum
navigator, clear the per-loop physical-action and eye flags, and strip
the loop-local token `cavern_collapse_witnessed`. `none` models the
`KeyError` of `_initialize_starting_position` when `timber_hearth` is
missing from the data. -/
def supernova_reset (gs : GameState) : Option GameState :=
  let r := trigger_supernova gs.loop_manager gs.knowledge_menu
  let poi1 := { gs.poi with
                  current_location := "timber_hearth"
                  in_ship := false
                  ship_flying := false }
  match initialize_starting_position gs.location_data poi1 with
  | none => none
  | some poi2 =>
    let km := r.2
    some { gs with
            loop_manager := r.1
            knowledge_menu :=
              { km with progress :=
                  { km.progress with knowledge_gained :=
                      km.progress.knowledge_gained.erase "cavern_collapse_witnessed" } }
            poi := poi2
            navigator := reset_navigation gs.navigator
            quantum_frequency_entered := false
            launch_code_entered := false
            eyes_closed := false
            eyes_closed_at_location := none }

/-! ## Concrete instances used to exercise the theorems -/

/-- Empty progress record (fresh `KnowledgeProgress()`), with the
initial discovered commands. -/
def freshProgress : KnowledgeProgress :=
  { entries_discovered := ∅
    knowledge_gained := ∅
    locations_visited := ∅
    current_loop := 1
    total_visits := 0
    dialogue_topics_asked := 0
    new_entries_since_last_view := 0
    discovered_commands := {"explore", "visit", "locations", "check log", "help", "quit"} }

/-- A registered entry that is discovered but whose `appears_after`
token has not been gained. -/
def hiddenGateEntry : KnowledgeEntry :=
  { entry_id := "loc.e1"
    location_id := "loc"
    title := "E1"
    entry_type := "wall_text"
    format_type := "academic"
    is_quantum := false
    knowledge_grants := []
    discovered := true
    discovered_loop := 1
    importance := "optional"
    short_desc := ""
    adds_to_log := true
    appears_after := ["hidden_gate"]
    key_info := "" }

/-- Raw data for `hiddenGateEntry`: no access requirements at all. -/
def hiddenGateEntryData : EntryData :=
  { title := "E1"
    entry_type := "wall_text"
    format_type := "academic"
    quantum := false
    knowledge_grants := []
    adds_to_log := true
    importance := "optional"
    short_desc := ""
    appears_after := ["hidden_gate"]
    key_info := ""
    requires_knowledge := []
    requires_dialogue_count := 0
    requires_exploration_percentage := 0 }

/-- The location data registering `hiddenGateEntry`. -/
def hiddenGateLocationData : LocationData :=
  { locations :=
      [("loc",
        { name := "Loc"
          starting_poi := some "start"
          points_of_interest := []
          entries := [("e1", hiddenGateEntryData)]
          requires_knowledge := []
          always_accessible := true })] }

/-- Menu state in which `hiddenGateEntry` is discovered but its
`appears_after` token is missing. -/
def hiddenGateState : KnowledgeMenuState :=
  { progress := { freshProgress with entries_discovered := {"loc.e1"} }
    all_entries := [("loc.e1", hiddenGateEntry)]
    location_data := hiddenGateLocationData }

/-- Same state after the `hidden_gate` token has been gained. -/
def hiddenGateStateUnlocked : KnowledgeMenuState :=
  { hiddenGateState with
      progress := { hiddenGateState.progress with knowledge_gained := {"hidden_gate"} } }

/-- An undiscovered registered entry granting two knowledge tokens. -/
def grantingEntry : KnowledgeEntry :=
  { hiddenGateEntry with
      entry_id := "loc.e2"
      title := "E2"
      knowledge_grants := ["token_a", "token_b"]
      discovered := false
      discovered_loop := 0
      appears_after := [] }

/-- Raw data for `grantingEntry`, flagged quantum. -/
def grantingEntryData : EntryData :=
  { hiddenGateEntryData with
      title := "E2"
      quantum := true
      knowledge_grants := ["token_a", "token_b"]
      appears_after := [] }

/-- Menu state registering only `grantingEntry`, nothing discovered. -/
def grantingState : KnowledgeMenuState :=
  { progress := freshProgress
    all_entries := [("loc.e2", grantingEntry)]
    location_data :=
      { locations :=
          [("loc",
            { name := "Loc"
              starting_poi := some "start"
              points_of_interest := []
              entries := [("e2", grantingEntryData)]
              requires_knowledge := []
              always_accessible := true })] } }

/-- A home location with two POIs: `village_center` connects only to
`observatory`. -/
def timberHearthInfo : LocationInfo :=
  { name := "Timber Hearth"
    starting_poi := some "village_center"
    points_of_interest :=
      [("village_center",
        { name := "Village Center"
          connections := ["observatory"]
          distance_to := [("observatory", 1)]
          entries := []
          npcs := []
          has_ship := false }),
       ("observatory",
        { name := "The Observatory"
          connections := ["village_center"]
          distance_to := [("village_center", 1)]
          entries := []
          npcs := []
          has_ship := false })]
    entries := []
    requires_knowledge := []
    always_accessible := true }

/-- Location data holding only the home location. -/
def smallLocationData : LocationData :=
  { locations := [("timber_hearth", timberHearthInfo)] }

/-- POI state standing at the village center of `smallLocationData`. -/
def villagePOIState : POIState :=
  { current_location := "timber_hearth"
    current_poi := "village_center"
    in_ship := false
    ship_flying := false
    discovered_pois := {"timber_hearth.village_center"}
    visited_pois := {"timber_hearth.village_center"} }

/-- A mid-loop game state: some actions spent, knowledge gained
(including the loop-local `cavern_collapse_witnessed`), ship flying,
navigator away from its start node, one stabilized quantum entry. -/
def midLoopGame : GameState :=
  { location_data := smallLocationData
    loop_manager :=
      { actions_until_supernova := 22
        current_actions := 22
        loop_count := 3
        is_first_loop := false
        cavern_has_collapsed := true }
    knowledge_menu :=
      { progress :=
          { freshProgress with
              entries_discovered := {"loc.e1"}
              knowledge_gained :=
                {"launch_code_epistemic", "cavern_collapse_witnessed"}
              current_loop := 3 }
        all_entries := [("loc.e1", hiddenGateEntry)]
        location_data := hiddenGateLocationData }
    poi :=
      { current_location := "attlerock"
        current_poi := "crater"
        in_ship := true
        ship_flying := true
        discovered_pois := {"timber_hearth.village_center", "attlerock.crater"}
        visited_pois := {"timber_hearth.village_center", "attlerock.crater"} }
    navigator := { current_location := "arch", has_visited_platform := true }
    quantum_states := [("quantum_moon.solanum_location", 6), ("loc.e9", 3)]
    quantum_frequency_entered := true
    launch_code_entered := true
    eyes_closed := true
    eyes_closed_at_location := some "convergence" }

/-- A second mid-loop game state (used to exercise the reset's quantum
frame condition), with an entry stuck at state 2. -/
def midLoopGame2 : GameState :=
  { midLoopGame with
      quantum_states := [("loc.stuck", 2), ("loc.stable", 6)]
      navigator := { current_location := "crystals", has_visited_platform := false } }

/-! ## Helper lemmas -/

theorem getD_mem_of_lt {α : Type} {l : List α} {n : Nat} (d : α) (h : n < l.length) :
    l.getD n d ∈ l := by
  induction l generalizing n with
  | nil => simp at h
  | cons x xs ih =>
    cases n with
    | zero => simp
    | succ m =>
      simp only [List.getD_cons_succ]
      exact List.mem_cons_of_mem _ (ih (by simpa using h))

theorem exists_getD_eq {α : Type} {l : List α} {a : α} (d : α) (h : a ∈ l) :
    ∃ n, n < l.length ∧ l.getD n d = a := by
  induction l with
  | nil => simp at h
  | cons x xs ih =>
    rcases List.mem_cons.mp h with rfl | hx
    · exact ⟨0, by simp, by simp⟩
    · obtain ⟨n, hn, he⟩ := ih hx
      exact ⟨n + 1, by simpa using Nat.succ_lt_succ hn, by simpa using he⟩

theorem alistFind_cons {α : Type} (k2 : String) (v2 : α) (l : List (String × α))
    (k : String) :
    alistFind ((k2, v2) :: l) k = if k2 = k then some v2 else alistFind l k := rfl

theorem alistSet_cons {α : Type} (k2 : String) (v2 : α) (l : List (String × α))
    (k : String) (v : α) :
    alistSet ((k2, v2) :: l) k v =
      (if k2 = k then (k2, v) else (k2, v2)) :: alistSet l k v := by
  by_cases hk : k2 = k <;> simp [alistSet, hk]

theorem alistFind_alistSet_self {α : Type} {l : List (String × α)} {k : String} {v0 : α}
    (h : alistFind l k = some v0) (v : α) :
    alistFind (alistSet l k v) k = some v := by
  induction l with
  | nil => simp [alistFind] at h
  | cons p l ih =>
    obtain ⟨k2, v2⟩ := p
    rw [alistFind_cons] at h
    by_cases hk : k2 = k
    · rw [alistSet_cons, if_pos hk, alistFind_cons, if_pos hk]
    · rw [alistSet_cons, if_neg hk, alistFind_cons, if_neg hk]
      rw [if_neg hk] at h
      exact ih h

theorem alistSet_alistSet {α : Type} (l : List (String × α)) (k : String) (v w : α) :
    alistSet (alistSet l k v) k w = alistSet l k w := by
  induction l with
  | nil => rfl
  | cons p l ih =>
    obtain ⟨k2, v2⟩ := p
    by_cases hk : k2 = k <;> simp [alistSet, hk] at ih ⊢ <;> exact ih

theorem mem_foldl_insert (l : List String) (s : Finset String) (x : String) :
    x ∈ l.foldl (fun acc k => insert k acc) s ↔ x ∈ s ∨ x ∈ l := by
  induction l generalizing s with
  | nil => simp
  | cons a l ih =>
    simp only [List.foldl_cons, ih, Finset.mem_insert, List.mem_cons]
    tauto

theorem runSignals_cons (st : LoopManagerState) (c : Nat) (cs : List Nat) :
    runSignals st (c :: cs) =
      (increment_action st c).1 :: runSignals (increment_action st c).2 cs := rfl

theorem increment_action_state (st : LoopManagerState) (c : Nat) :
    (increment_action st c).2.current_actions = st.current_actions + c ∧
    (increment_action st c).2.actions_until_supernova = st.actions_until_supernova := by
  by_cases h1 : st.current_actions + c = 14 ∧ st.cavern_has_collapsed = false
  · simp [increment_action, h1]
  · by_cases h2 : st.actions_until_supernova ≤ st.current_actions + c <;>
      simp [increment_action, h1, h2]

theorem increment_action_flag (st : LoopManagerState) (c : Nat) :
    ((increment_action st c).2.cavern_has_collapsed = false ↔
      (st.cavern_has_collapsed = false ∧ st.current_actions + c ≠ 14)) := by
  by_cases h1 : st.current_actions + c = 14 ∧ st.cavern_has_collapsed = false
  · simp [increment_action, h1, h1.1]
  · by_cases h2 : st.actions_until_supernova ≤ st.current_actions + c <;>
      simp [increment_action, h1, h2] <;> tauto

theorem increment_action_collapse_iff (st : LoopManagerState) (c : Nat) :
    (increment_action st c).1 = LoopSignal.quantumCavernCollapse ↔
      (st.current_actions + c = 14 ∧ st.cavern_has_collapsed = false) := by
  by_cases h1 : st.current_actions + c = 14 ∧ st.cavern_has_collapsed = false
  · simp [increment_action, h1]
  · by_cases h2 : st.actions_until_supernova ≤ st.current_actions + c <;>
      simp [increment_action, h1, h2]

theorem increment_action_supernova_imp (st : LoopManagerState) (c : Nat)
    (h : (increment_action st c).1 = LoopSignal.supernova) :
    st.actions_until_supernova ≤ st.current_actions + c := by
  by_cases h1 : st.current_actions + c = 14 ∧ st.cavern_has_collapsed = false
  · simp [increment_action, h1] at h
  · by_cases h2 : st.actions_until_supernova ≤ st.current_actions + c
    · exact h2
    · simp [increment_action, h1, h2] at h

theorem runSignals_collapse_iff (cs : List Nat) (hpos : ∀ c ∈ cs, 0 < c)
    (st : LoopManagerState) (i : Nat) (hi : i < cs.length) :
    ((runSignals st cs).getD i LoopSignal.noSignal = LoopSignal.quantumCavernCollapse ↔
      (st.cavern_has_collapsed = false ∧
       st.current_actions + (cs.take (i + 1)).sum = 14)) := by
  induction cs generalizing st i with
  | nil => simp at hi
  | cons c cs ih =>
    cases i with
    | zero =>
      rw [runSignals_cons]
      simp only [List.getD_cons_zero, List.take_succ_cons, List.take_zero,
        List.sum_cons, List.sum_nil, Nat.add_zero]
      rw [increment_action_collapse_iff]
      tauto
    | succ j =>
      rw [runSignals_cons]
      simp only [List.getD_cons_succ, List.take_succ_cons, List.sum_cons,
        List.length_cons] at hi ⊢
      have hj : j < cs.length := by omega
      have htail : ∀ x ∈ cs, 0 < x := fun x hx => hpos x (List.mem_cons_of_mem _ hx)
      rw [ih htail _ j hj, (increment_action_state st c).1, increment_action_flag]
      have hS : 0 < (cs.take (j + 1)).sum := by
        cases cs with
        | nil => simp at hj
        | cons d ds =>
          have hd : 0 < d := htail d (by simp)
          simp only [List.take_succ_cons, List.sum_cons]
          omega
      constructor
      · rintro ⟨⟨h1, h2⟩, h3⟩
        exact ⟨h1, by omega⟩
      · rintro ⟨h1, h2⟩
        exact ⟨⟨h1, by omega⟩, by omega⟩

theorem runSignals_supernova_le (cs : List Nat) (st : LoopManagerState) (i : Nat)
    (hi : i < cs.length)
    (h : (runSignals st cs).getD i LoopSignal.noSignal = LoopSignal.supernova) :
    st.actions_until_supernova ≤ st.current_actions + (cs.take (i + 1)).sum := by
  induction cs generalizing st i with
  | nil => simp at hi
  | cons c cs ih =>
    cases i with
    | zero =>
      rw [runSignals_cons] at h
      simp only [List.getD_cons_zero] at h
      simp only [List.take_succ_cons, List.take_zero, List.sum_cons, List.sum_nil,
        Nat.add_zero]
      exact increment_action_supernova_imp st c h
    | succ j =>
      rw [runSignals_cons] at h
      simp only [List.getD_cons_succ] at h
      simp only [List.length_cons] at hi
      have hstep := ih (increment_action st c).2 j (by omega) h
      rw [(increment_action_state st c).1, (increment_action_state st c).2] at hstep
      simp only [List.take_succ_cons, List.sum_cons]
      omega

theorem take_sum_lt_take_sum (cs : List Nat) (hpos : ∀ c ∈ cs, 0 < c)
    (i j : Nat) (hij : i < j) (hj : j < cs.length) :
    (cs.take (i + 1)).sum < (cs.take (j + 1)).sum := by
  have hsplit : cs.take (j + 1) = cs.take (i + 1) ++ (cs.drop (i + 1)).take (j - i) := by
    rw [← List.take_add]
    congr 1
    omega
  rw [hsplit, List.sum_append]
  have hlen : 0 < ((cs.drop (i + 1)).take (j - i)).length := by
    simp only [List.length_take, List.length_drop]
    omega
  have hpos2 : ∀ x ∈ (cs.drop (i + 1)).take (j - i), 0 < x := fun x hx =>
    hpos x (List.drop_subset _ _ (List.take_subset _ _ hx))
  have hsum : 0 < ((cs.drop (i + 1)).take (j - i)).sum :=
    List.sum_pos _ hpos2 (List.length_pos.mp hlen)
  omega

/-- C5 (amended): with the default threshold configuration, for every
sequence of positive action costs in one loop, the mid-loop
(quantum-cavern-collapse) signal is emitted at call `i` IFF the counter
after call `i` is EXACTLY 14 — not merely crossing 14: a cost that
overshoots the threshold skips the event (see the counterexample).
Consequently it fires at most once per loop, and whenever it fires it
does so strictly before any supernova signal. -/
theorem mid_loop_event_exactly_on_14 (cs : List Nat) (hpos : ∀ c ∈ cs, 0 < c) :
    (∀ i, i < cs.length →
      ((runSignals (LoopManagerState.init 22) cs).getD i LoopSignal.noSignal =
          LoopSignal.quantumCavernCollapse ↔ (cs.take (i + 1)).sum = 14)) ∧
    (∀ i j, i < cs.length → j < cs.length →
      (runSignals (LoopManagerState.init 22) cs).getD i LoopSignal.noSignal =
        LoopSignal.quantumCavernCollapse →
      (runSignals (LoopManagerState.init 22) cs).getD j LoopSignal.noSignal =
        LoopSignal.quantumCavernCollapse → i = j) ∧
    (∀ i j, i < cs.length → j < cs.length →
      (runSignals (LoopManagerState.init 22) cs).getD i LoopSignal.noSignal =
        LoopSignal.quantumCavernCollapse →
      (runSignals (LoopManagerState.init 22) cs).getD j LoopSignal.noSignal =
        LoopSignal.supernova → i < j) := by
  have hchar : ∀ i, i < cs.length →
      ((runSignals (LoopManagerState.init 22) cs).getD i LoopSignal.noSignal =
          LoopSignal.quantumCavernCollapse ↔ (cs.take (i + 1)).sum = 14) := by
    intro i hi
    have h := runSignals_collapse_iff cs hpos (LoopManagerState.init 22) i hi
    simpa [LoopManagerState.init] using h
  refine ⟨hchar, ?_, ?_⟩
  · intro i j hi hj hci hcj
    have si := (hchar i hi).mp hci
    have sj := (hchar j hj).mp hcj
    by_contra hne
    rcases Nat.lt_or_ge i j with h | h
    · have := take_sum_lt_take_sum cs hpos i j h hj
      omega
    · have hji : j < i := by omega
      have := take_sum_lt_take_sum cs hpos j i hji hi
      omega
  · intro i j hi hj hci hsj
    have si := (hchar i hi).mp hci
    have hsup := runSignals_supernova_le cs (LoopManagerState.init 22) j hj hsj
    simp only [LoopManagerState.init, Nat.zero_add] at hsup
    by_contra hle
    have hji : j ≤ i := by omega
    rcases Nat.eq_or_lt_of_le hji with rfl | h
    · rw [hci] at hsj
      exact absurd hsj (by decide)
    · have := take_sum_lt_take_sum cs hpos j i h hi
      omega

theorem mid_loop_event_exactly_on_14_witness :
    (∀ c ∈ ([14, 8] : List Nat), 0 < c) ∧
    (runSignals (LoopManagerState.init 22) [14, 8]).getD 0 LoopSignal.noSignal =
      LoopSignal.quantumCavernCollapse := by
  have h := mid_loop_event_exactly_on_14 [14, 8] (by decide)
  exact ⟨by decide, (h.1 0 (by decide)).mpr (by decide)⟩

/-! ## Claim theorems (spatial, visibility, discovery) -/

/-- C8: moving to a POI id that is not in the current POI's connection
list returns the structured invalid-target failure `(False, 0, message)`
and leaves the whole spatial state (current POI, current location,
visited and discovered POI sets) exactly as before. -/
theorem move_to_poi_invalid_target (ld : LocationData) (st : POIState) (poi_id : String)
    (h : poi_id ∉ poi_connections (get_current_poi_data ld st)) :
    move_to_poi ld st poi_id =
      ((false, 0, "You can\x27t reach " ++ poi_id ++ " from here."), st) := by
  simp [move_to_poi, h]

theorem move_to_poi_invalid_target_witness :
    ("radio_station" ∉ poi_connections (get_current_poi_data smallLocationData villagePOIState)) ∧
    move_to_poi smallLocationData villagePOIState "radio_station" =
      ((false, 0, "You can\x27t reach " ++ "radio_station" ++ " from here."),
        villagePOIState) :=
  ⟨by decide,
   move_to_poi_invalid_target smallLocationData villagePOIState "radio_station" (by decide)⟩

/-- C3: contrary to the claim, observing any ordinary cardinal direction
while the navigator is at `convergence` is NOT total: the random branch
runs `possible_locations.remove("convergence")` on the list
`["platform", "crystals", "tree", "arch"]`, which does not contain
`"convergence"`, so Python raises an uncaught `ValueError` (modelled by
`none`) instead of returning a structured result. -/
theorem observe_direction_at_convergence_raises (k : Nat) (b : Bool) :
    observe_direction ⟨"convergence", b⟩ "north" k = none ∧
    observe_direction ⟨"convergence", b⟩ "south" k = none ∧
    observe_direction ⟨"convergence", b⟩ "east" k = none ∧
    observe_direction ⟨"convergence", b⟩ "west" k = none :=
  ⟨rfl, rfl, rfl, rfl⟩

/-- C2 counterexample: at `platform` the random branch excludes only the
current node, not the stable-edge successor: the draw `k = 0` on
observing `north` lands on `crystals`, which is exactly the
stable-`east` successor B — refuting "the random branch never yields
B". -/
theorem platform_random_branch_reaches_crystals :
    observe_direction ⟨"platform", false⟩ "north" 0 =
      some ((true, "Quantum teleport to Singing Crystal Field", false),
        ⟨"crystals", false⟩) ∧
    alistFind (stable_path "platform") "east" = some "crystals" :=
  ⟨rfl, rfl⟩

/-- Partial evaluation of the random branch at `platform`: any non-stable
cardinal observation teleports to the draw-selected element of the
three-candidate list `["crystals", "tree", "arch"]`. -/
theorem observe_platform_random_raw (b : Bool) (k : Nat) (d : String)
    (hd : d ∈ (["north", "south", "west"] : List String)) :
    observe_direction ⟨"platform", b⟩ d k =
      some ((true,
        "Quantum teleport to " ++
          location_name (["crystals", "tree", "arch"].getD (k % 3) ""),
        false),
        ⟨["crystals", "tree", "arch"].getD (k % 3) "",
          if ["crystals", "tree", "arch"].getD (k % 3) "" = "platform" then true
          else b⟩) := by
  fin_cases hd <;> rfl

/-- C2 (amended): at node A (`platform`), observing `east` always
deterministically yields B (`crystals`); observing any of
north/south/west yields a uniform random choice among exactly the OTHER
THREE pre-terminal nodes `{crystals, tree, arch}` = {B, C, D} — the
random branch never yields the current node A and never yields
`convergence`, but it CAN yield the stable-edge successor B. -/
theorem platform_observation_spec (b : Bool) (d : String) (k : Nat)
    (hd : d ∈ (["north", "south", "west"] : List String)) :
    (∀ k2 : Nat, observe_direction ⟨"platform", b⟩ "east" k2 =
      some ((true,
        "The quantum waveform shifts. You find yourself at: Singing Crystal Field",
        false), ⟨"crystals", b⟩)) ∧
    observe_direction ⟨"platform", b⟩ d k =
      some ((true,
        "Quantum teleport to " ++
          location_name (["crystals", "tree", "arch"].getD (k % 3) ""),
        false),
        ⟨["crystals", "tree", "arch"].getD (k % 3) "", b⟩) ∧
    ["crystals", "tree", "arch"].getD (k % 3) "" ≠ "platform" ∧
    ["crystals", "tree", "arch"].getD (k % 3) "" ≠ "convergence" ∧
    ["crystals", "tree", "arch"].getD (k % 3) "" ∈
      (["crystals", "tree", "arch"] : List String) := by
  have raw := observe_platform_random_raw b k d hd
  have h3 : k % 3 = 0 ∨ k % 3 = 1 ∨ k % 3 = 2 := by omega
  refine ⟨fun k2 => rfl, ?_, ?_, ?_, ?_⟩
  · rcases h3 with h | h | h <;> rw [raw, h] <;> rfl
  · rcases h3 with h | h | h <;> rw [h] <;> decide
  · rcases h3 with h | h | h <;> rw [h] <;> decide
  · rcases h3 with h | h | h <;> rw [h] <;> decide

theorem platform_observation_spec_witness :
    ("north" ∈ (["north", "south", "west"] : List String)) ∧
    observe_direction ⟨"platform", false⟩ "north" 5 =
      some ((true,
        "Quantum teleport to " ++
          location_name (["crystals", "tree", "arch"].getD (5 % 3) ""),
        false),
        ⟨["crystals", "tree", "arch"].getD (5 % 3) "", false⟩) :=
  ⟨by decide, (platform_observation_spec false "north" 5 (by decide)).2.1⟩

/-- C5 counterexample: with the positive action costs `[15, 7]` the
counter crosses the mid-loop threshold 14 on the very first call
(0 < 14 ≤ 0 + 15), yet no mid-loop event is ever emitted — the loop runs
straight to the supernova — because the code tests
`current_actions == 14` (exact equality), not a crossing. -/
theorem mid_loop_event_skipped_on_overshoot :
    (LoopManagerState.init 22).current_actions < 14 ∧
    14 ≤ (LoopManagerState.init 22).current_actions + 15 ∧
    runSignals (LoopManagerState.init 22) [15, 7] =
      [LoopSignal.noSignal, LoopSignal.supernova] := by decide

theorem mem_get_new_state_choices (old_state s : Nat) :
    (s ∈ get_new_state_choices old_state ↔
      (1 ≤ s ∧ s ≤ 6 ∧ (1 ≤ old_state → s ≠ old_state))) := by
  have hr : List.range' 1 6 = [1, 2, 3, 4, 5, 6] := rfl
  by_cases h : old_state = 0
  · subst h
    have h0 : get_new_state_choices 0 = [1, 2, 3, 4, 5, 6] := rfl
    rw [h0]
    simp only [List.mem_cons, List.not_mem_nil, or_false]
    omega
  · simp only [get_new_state_choices, if_neg h, hr, List.mem_filter, List.mem_cons,
      List.not_mem_nil, or_false, decide_eq_true_eq]
    omega

theorem get_new_state_choices_nodup (old_state : Nat) :
    (get_new_state_choices old_state).Nodup := by
  by_cases h : old_state = 0
  · subst h
    decide
  · simp only [get_new_state_choices, if_neg h]
    exact List.Nodup.filter _ (by decide)

theorem get_new_state_choices_ne_nil (old_state : Nat) :
    get_new_state_choices old_state ≠ [] := by
  intro hnil
  by_cases h1 : old_state = 1
  · have h2 : 2 ∈ get_new_state_choices old_state := by
      rw [mem_get_new_state_choices]
      omega
    rw [hnil] at h2
    simp at h2
  · have h2 : 1 ∈ get_new_state_choices old_state := by
      rw [mem_get_new_state_choices]
      omega
    rw [hnil] at h2
    simp at h2

theorem get_new_state_mem (old_state k : Nat) :
    get_new_state old_state k ∈ get_new_state_choices old_state := by
  have hlen : 0 < (get_new_state_choices old_state).length :=
    List.length_pos.mpr (get_new_state_choices_ne_nil old_state)
  exact getD_mem_of_lt 0 (Nat.mod_lt _ hlen)

/-- C7: every state roll lands in `{1..6}`; from prior state 0 the
support is exactly `[1, 2, 3, 4, 5, 6]`; from a prior state `s ≥ 1` the
support is exactly `{1..6}` minus the prior state, with no duplicates
(each support element is drawn by exactly one residue class of the
uniform draw, so the choice is uniform) and every support element
reachable; hence two consecutive rolls never return the same state twice
in a row. -/
theorem quantum_state_roll_spec (old_state k : Nat) :
    (1 ≤ get_new_state old_state k ∧ get_new_state old_state k ≤ 6) ∧
    (1 ≤ old_state → get_new_state old_state k ≠ old_state) ∧
    (old_state = 0 → get_new_state_choices old_state = [1, 2, 3, 4, 5, 6]) ∧
    (get_new_state_choices old_state).Nodup ∧
    (∀ s, s ∈ get_new_state_choices old_state ↔
      (1 ≤ s ∧ s ≤ 6 ∧ (1 ≤ old_state → s ≠ old_state))) ∧
    (∀ s, s ∈ get_new_state_choices old_state → ∃ k2, get_new_state old_state k2 = s) ∧
    (∀ k2, get_new_state (get_new_state old_state k) k2 ≠ get_new_state old_state k) := by
  have hmem := get_new_state_mem old_state k
  have hbounds := (mem_get_new_state_choices old_state _).mp hmem
  refine ⟨⟨hbounds.1, hbounds.2.1⟩, fun h1 => hbounds.2.2 h1, ?_,
    get_new_state_choices_nodup old_state, mem_get_new_state_choices old_state, ?_, ?_⟩
  · intro h0
    subst h0
    rfl
  · intro s hs
    obtain ⟨n, hn, he⟩ := exists_getD_eq 0 hs
    refine ⟨n, ?_⟩
    show (get_new_state_choices old_state).getD
      (n % (get_new_state_choices old_state).length) 0 = s
    rw [Nat.mod_eq_of_lt hn]
    exact he
  · intro k2
    have hmem2 := get_new_state_mem (get_new_state old_state k) k2
    have hb2 := (mem_get_new_state_choices _ _).mp hmem2
    exact hb2.2.2 hbounds.1

theorem quantum_state_roll_spec_witness :
    (1 ≤ get_new_state 3 5 ∧ get_new_state 3 5 ≤ 6) ∧ get_new_state 3 5 ≠ 3 :=
  ⟨(quantum_state_roll_spec 3 5).1, (quantum_state_roll_spec 3 5).2.1 (by decide)⟩

/-- C6: for a registered, not-yet-discovered entry, `discover_entry`
returns `True` the first time and `False` the second time; the first
call inserts the entry id into the discovered set and unions the
knowledge grants in exactly once; the second call changes no state at
all. -/
theorem discover_entry_twice (st : KnowledgeMenuState) (entry_id : String)
    (entry : KnowledgeEntry)
    (hfind : alistFind st.all_entries entry_id = some entry)
    (hid : entry.entry_id = entry_id)
    (hnew : entry_id ∉ st.progress.entries_discovered) :
    (discover_entry st entry_id).1 = true ∧
    (discover_entry (discover_entry st entry_id).2 entry_id).1 = false ∧
    (discover_entry (discover_entry st entry_id).2 entry_id).2 =
      (discover_entry st entry_id).2 ∧
    (∀ g, g ∈ (discover_entry st entry_id).2.progress.knowledge_gained ↔
      (g ∈ st.progress.knowledge_gained ∨ g ∈ entry.knowledge_grants)) ∧
    (discover_entry st entry_id).2.progress.entries_discovered =
      insert entry_id st.progress.entries_discovered := by
  set e1 : KnowledgeEntry :=
    { entry with discovered := true, discovered_loop := st.progress.current_loop }
    with he1
  set p1 : KnowledgeProgress :=
    { st.progress with
        entries_discovered := insert entry_id st.progress.entries_discovered
        knowledge_gained :=
          entry.knowledge_grants.foldl (fun s k => insert k s)
            st.progress.knowledge_gained
        new_entries_since_last_view := st.progress.new_entries_since_last_view + 1 }
    with hp1
  have hstep : discover_entry st entry_id =
      (true,
       { progress := p1
         all_entries := alistSet st.all_entries entry_id e1
         location_data := st.location_data }) := by
    simp only [discover_entry, hfind]
    simp [add_entry, hid, hnew, he1, hp1]
  have hfind2 : alistFind (alistSet st.all_entries entry_id e1) entry_id = some e1 :=
    alistFind_alistSet_self hfind e1
  have hmem2 : e1.entry_id ∈ insert entry_id st.progress.entries_discovered := by
    simp [he1, hid]
  have hstep2 : discover_entry (discover_entry st entry_id).2 entry_id =
      (false, (discover_entry st entry_id).2) := by
    rw [hstep]
    simp only [discover_entry, hfind2]
    simp [add_entry, hmem2, alistSet_alistSet, hp1]
  refine ⟨by rw [hstep], by rw [hstep2], by rw [hstep2], ?_, by rw [hstep]⟩
  intro g
  rw [hstep]
  exact mem_foldl_insert _ _ _

theorem discover_entry_twice_witness :
    (alistFind grantingState.all_entries "loc.e2" = some grantingEntry) ∧
    ("loc.e2" ∉ grantingState.progress.entries_discovered) ∧
    (discover_entry grantingState "loc.e2").1 = true ∧
    (discover_entry (discover_entry grantingState "loc.e2").2 "loc.e2").1 = false ∧
    ("token_a" ∈ (discover_entry grantingState "loc.e2").2.progress.knowledge_gained ↔
      ("token_a" ∈ grantingState.progress.knowledge_gained ∨
        "token_a" ∈ grantingEntry.knowledge_grants)) := by
  have h := discover_entry_twice grantingState "loc.e2" grantingEntry
    (by decide) (by decide) (by decide)
  exact ⟨by decide, by decide, h.1, h.2.1, h.2.2.2.1 "token_a"⟩

/-- C4 counterexample: a registered entry that is discovered — and even
access-eligible — is NOT in the rumor-mode visible set when its
`appears_after` token is missing: `_get_visible_entries` applies the
appears-after gate to every entry, discovered or not, refuting
"discovered entries are always visible regardless of appears-after
state". -/
theorem discovered_entry_hidden_counterexample :
    hiddenGateEntry.discovered = true ∧
    alistFind hiddenGateState.all_entries "loc.e1" = some hiddenGateEntry ∧
    (can_access_entry hiddenGateState "loc.e1").1 = true ∧
    hiddenGateEntry ∉ get_visible_entries hiddenGateState := by decide

/-- C4 (amended): a registered DISCOVERED entry is in the rumor-mode
visible set IF AND ONLY IF all of its `appears_after` tokens are
satisfied — the appears-after visibility gate applies to discovered
entries exactly as to undiscovered ones. -/
theorem discovered_entry_visible_iff_appears (st : KnowledgeMenuState)
    (entry : KnowledgeEntry)
    (hmem : entry ∈ st.all_entries.map Prod.snd)
    (hdisc : entry.discovered = true) :
    (entry ∈ get_visible_entries st ↔ should_entry_appear st entry = true) := by
  unfold get_visible_entries
  rw [List.mem_filter]
  simp [hmem, hdisc]

theorem discovered_entry_visible_iff_appears_witness :
    (hiddenGateEntry ∈ hiddenGateStateUnlocked.all_entries.map Prod.snd) ∧
    hiddenGateEntry.discovered = true ∧
    (hiddenGateEntry ∈ get_visible_entries hiddenGateStateUnlocked ↔
      should_entry_appear hiddenGateStateUnlocked hiddenGateEntry = true) :=
  ⟨by decide, by decide,
   discovered_entry_visible_iff_appears hiddenGateStateUnlocked hiddenGateEntry
     (by decide) (by decide)⟩

theorem foldl_add_knowledge (l : List String) (st : KnowledgeMenuState) :
    l.foldl (fun s k => add_knowledge s k) st =
      { st with progress :=
          { st.progress with
              knowledge_gained :=
                l.foldl (fun acc k => insert k acc) st.progress.knowledge_gained } } := by
  induction l generalizing st with
  | nil => rfl
  | cons a l ih =>
    simp only [List.foldl_cons]
    rw [ih]
    rfl

/-- C9: reading a quantum entry at a state `s` in 1..5 displays the
seeded scramble of the content — a pure function of the content and the
numeric state, so repeated reads at the same state are identical — and
changes no knowledge-menu state (no discovery); reading at the
stabilized state 6 displays the original content unchanged and triggers
discovery exactly once: the first read returns `was_new = true`, marks
the entry discovered and unions the grants in once, the second read
returns `was_new = false` and changes nothing. -/
theorem read_entry_quantum_spec (st : KnowledgeMenuState)
    (quantum_states : List (String × Nat)) (full_id content : String)
    (ed : EntryData) (entry : KnowledgeEntry) (s : Nat)
    (hfind : alistFind st.all_entries full_id = some entry)
    (hid : entry.entry_id = full_id)
    (hgr : entry.knowledge_grants = ed.knowledge_grants)
    (hnew : full_id ∉ st.progress.entries_discovered)
    (hstate : get_entry_state quantum_states full_id = s) :
    (1 ≤ s → s ≤ 5 →
      read_entry_quantum st quantum_states full_id ed content =
        ({ displayed := scramble_core content s, was_new := false }, st) ∧
      scramble_text content s = scramble_core content s) ∧
    (s = 6 →
      (read_entry_quantum st quantum_states full_id ed content).1.displayed = content ∧
      (read_entry_quantum st quantum_states full_id ed content).1.was_new = true ∧
      full_id ∈
        (read_entry_quantum st quantum_states full_id ed content).2.progress.entries_discovered ∧
      (∀ g, g ∈
          (read_entry_quantum st quantum_states full_id ed content).2.progress.knowledge_gained ↔
        (g ∈ st.progress.knowledge_gained ∨ g ∈ ed.knowledge_grants)) ∧
      (read_entry_quantum (read_entry_quantum st quantum_states full_id ed content).2
          quantum_states full_id ed content).1.displayed = content ∧
      (read_entry_quantum (read_entry_quantum st quantum_states full_id ed content).2
          quantum_states full_id ed content).1.was_new = false ∧
      (read_entry_quantum (read_entry_quantum st quantum_states full_id ed content).2
          quantum_states full_id ed content).2 =
        (read_entry_quantum st quantum_states full_id ed content).2) := by
  constructor
  · intro h1 h5
    have hne : s ≠ 6 := by omega
    constructor
    · unfold read_entry_quantum
      rw [hstate]
      simp [load_and_display_content, hne]
    · simp [scramble_text, hne]
  · rintro rfl
    set e1 : KnowledgeEntry :=
      { entry with discovered := true, discovered_loop := st.progress.current_loop }
      with he1
    set p1 : KnowledgeProgress :=
      { st.progress with
          entries_discovered := insert full_id st.progress.entries_discovered
          knowledge_gained :=
            entry.knowledge_grants.foldl (fun s2 k => insert k s2)
              st.progress.knowledge_gained
          new_entries_since_last_view := st.progress.new_entries_since_last_view + 1 }
      with hp1
    set st2 : KnowledgeMenuState :=
      { progress :=
          { p1 with knowledge_gained :=
              ed.knowledge_grants.foldl (fun acc k => insert k acc) p1.knowledge_gained }
        all_entries := alistSet st.all_entries full_id e1
        location_data := st.location_data } with hst2
    have hstepD : discover_entry st full_id =
        (true,
         { progress := p1
           all_entries := alistSet st.all_entries full_id e1
           location_data := st.location_data }) := by
      simp only [discover_entry, hfind]
      simp [add_entry, hid, hnew, he1, hp1]
    have hr1 : read_entry_quantum st quantum_states full_id ed content =
        ({ displayed := content, was_new := true }, st2) := by
      unfold read_entry_quantum
      rw [hstate, hstepD]
      simp [load_and_display_content, foldl_add_knowledge, hst2]
    have hfind2 : alistFind st2.all_entries full_id = some e1 := by
      rw [hst2]
      exact alistFind_alistSet_self hfind e1
    have hmem2 : e1.entry_id ∈ st2.progress.entries_discovered := by
      rw [hst2]
      simp only [hp1, he1]
      simp [hid, mem_foldl_insert]
    have hstepD2 : discover_entry st2 full_id = (false, st2) := by
      simp only [discover_entry, hfind2]
      simp only [add_entry, if_pos hmem2]
      rw [hst2]
      simp [alistSet_alistSet]
    have hr2 : read_entry_quantum st2 quantum_states full_id ed content =
        ({ displayed := content, was_new := false }, st2) := by
      unfold read_entry_quantum
      rw [hstate, hstepD2]
      simp [load_and_display_content]
    refine ⟨by rw [hr1], by rw [hr1], ?_, ?_, by rw [hr1, hr2], by rw [hr1, hr2],
      by rw [hr1, hr2]⟩
    · rw [hr1, hst2]
      show full_id ∈ p1.entries_discovered
      rw [hp1]
      exact Finset.mem_insert_self _ _
    · intro g
      have k2 : g ∈ p1.knowledge_gained ↔
          (g ∈ st.progress.knowledge_gained ∨ g ∈ entry.knowledge_grants) := by
        rw [hp1]
        exact mem_foldl_insert _ _ _
      rw [hr1, hst2]
      show g ∈ ed.knowledge_grants.foldl (fun acc k => insert k acc) p1.knowledge_gained ↔ _
      rw [mem_foldl_insert _ _ _, k2, hgr]
      tauto

theorem read_entry_quantum_spec_witness :
    (alistFind grantingState.all_entries "loc.e2" = some grantingEntry) ∧
    (get_entry_state [("loc.e2", 6)] "loc.e2" = 6) ∧
    (read_entry_quantum grantingState [("loc.e2", 6)] "loc.e2" grantingEntryData
      "alpha beta").1.was_new = true ∧
    (read_entry_quantum grantingState [("loc.e2", 6)] "loc.e2" grantingEntryData
      "alpha beta").1.displayed = "alpha beta" := by
  have h := read_entry_quantum_spec grantingState [("loc.e2", 6)] "loc.e2" "alpha beta"
    grantingEntryData grantingEntry 6 (by decide) (by decide) (by decide) (by decide)
    (by decide)
  exact ⟨by decide, by decide, (h.2 rfl).2.1, (h.2 rfl).1⟩

/-- C1: after a supernova reset, the action counter is 0, the mid-loop
collapse flag is cleared, both loop counters are incremented by exactly
1, the position is the home location's configured starting POI, both
ship flags are false, the navigator is back at its start node, the
loop-local token `cavern_collapse_witnessed` is absent, and all other
knowledge-store state — the discovered-entry set, the registered entry
records, and every other knowledge token — is exactly as before. -/
theorem supernova_reset_spec (gs : GameState) (li : LocationInfo)
    (h : alistFind gs.location_data.locations "timber_hearth" = some li) :
    ∃ gs2, supernova_reset gs = some gs2 ∧
      gs2.loop_manager.current_actions = 0 ∧
      gs2.loop_manager.cavern_has_collapsed = false ∧
      gs2.loop_manager.loop_count = gs.loop_manager.loop_count + 1 ∧
      gs2.knowledge_menu.progress.current_loop =
        gs.knowledge_menu.progress.current_loop + 1 ∧
      gs2.poi.current_location = "timber_hearth" ∧
      gs2.poi.current_poi = li.starting_poi.getD "village_center" ∧
      gs2.poi.in_ship = false ∧
      gs2.poi.ship_flying = false ∧
      gs2.navigator.current_location = "platform" ∧
      "cavern_collapse_witnessed" ∉ gs2.knowledge_menu.progress.knowledge_gained ∧
      gs2.knowledge_menu.progress.entries_discovered =
        gs.knowledge_menu.progress.entries_discovered ∧
      gs2.knowledge_menu.all_entries = gs.knowledge_menu.all_entries ∧
      (∀ t, t ≠ "cavern_collapse_witnessed" →
        (t ∈ gs2.knowledge_menu.progress.knowledge_gained ↔
         t ∈ gs.knowledge_menu.progress.knowledge_gained)) := by
  have hinit : initialize_starting_position gs.location_data
      { gs.poi with
          current_location := "timber_hearth"
          in_ship := false
          ship_flying := false } =
      some { gs.poi with
              current_location := "timber_hearth"
              in_ship := false
              ship_flying := false
              current_poi := li.starting_poi.getD "village_center"
              discovered_pois :=
                insert ("timber_hearth" ++ "." ++ li.starting_poi.getD "village_center")
                  gs.poi.discovered_pois
              visited_pois :=
                insert ("timber_hearth" ++ "." ++ li.starting_poi.getD "village_center")
                  gs.poi.visited_pois } := by
    simp only [initialize_starting_position]
    rw [h]
  simp only [supernova_reset, trigger_supernova, increment_loop, reset_navigation]
  rw [hinit]
  refine ⟨_, rfl, rfl, rfl, rfl, rfl, rfl, rfl, rfl, rfl, rfl,
    Finset.not_mem_erase _ _, rfl, rfl, ?_⟩
  intro t ht
  simp [Finset.mem_erase, ht]

theorem supernova_reset_spec_witness :
    (alistFind midLoopGame.location_data.locations "timber_hearth" =
      some timberHearthInfo) ∧
    (∃ gs2, supernova_reset midLoopGame = some gs2 ∧
      gs2.loop_manager.current_actions = 0 ∧
      gs2.loop_manager.cavern_has_collapsed = false ∧
      gs2.loop_manager.loop_count = midLoopGame.loop_manager.loop_count + 1 ∧
      gs2.knowledge_menu.progress.current_loop =
        midLoopGame.knowledge_menu.progress.current_loop + 1 ∧
      gs2.poi.current_location = "timber_hearth" ∧
      gs2.poi.current_poi = timberHearthInfo.starting_poi.getD "village_center" ∧
      gs2.poi.in_ship = false ∧
      gs2.poi.ship_flying = false ∧
      gs2.navigator.current_location = "platform" ∧
      "cavern_collapse_witnessed" ∉ gs2.knowledge_menu.progress.knowledge_gained ∧
      gs2.knowledge_menu.progress.entries_discovered =
        midLoopGame.knowledge_menu.progress.entries_discovered ∧
      gs2.knowledge_menu.all_entries = midLoopGame.knowledge_menu.all_entries ∧
      (∀ t, t ≠ "cavern_collapse_witnessed" →
        (t ∈ gs2.knowledge_menu.progress.knowledge_gained ↔
         t ∈ midLoopGame.knowledge_menu.progress.knowledge_gained))) :=
  ⟨by decide, supernova_reset_spec midLoopGame timberHearthInfo (by decide)⟩

/-- C10: the supernova reset leaves the per-entry quantum state map
completely untouched — no clearing, no re-roll — so a stabilized (state
6) or stuck (state 1..5) entry keeps its exact state into the next loop,
even though position, ship flags and the navigator are reset. -/
theorem supernova_reset_preserves_quantum_states (gs : GameState) (li : LocationInfo)
    (h : alistFind gs.location_data.locations "timber_hearth" = some li) :
    ∃ gs2, supernova_reset gs = some gs2 ∧
      gs2.quantum_states = gs.quantum_states ∧
      (∀ full_entry_id, get_entry_state gs2.quantum_states full_entry_id =
        get_entry_state gs.quantum_states full_entry_id) := by
  have hinit : initialize_starting_position gs.location_data
      { gs.poi with
          current_location := "timber_hearth"
          in_ship := false
          ship_flying := false } =
      some { gs.poi with
              current_location := "timber_hearth"
              in_ship := false
              ship_flying := false
              current_poi := li.starting_poi.getD "village_center"
              discovered_pois :=
                insert ("timber_hearth" ++ "." ++ li.starting_poi.getD "village_center")
                  gs.poi.discovered_pois
              visited_pois :=
                insert ("timber_hearth" ++ "." ++ li.starting_poi.getD "village_center")
                  gs.poi.visited_pois } := by
    simp only [initialize_starting_position]
    rw [h]
  simp only [supernova_reset, trigger_supernova, increment_loop, reset_navigation]
  rw [hinit]
  exact ⟨_, rfl, rfl, fun _ => rfl⟩

theorem supernova_reset_preserves_quantum_states_witness :
    (alistFind midLoopGame2.location_data.locations "timber_hearth" =
      some timberHearthInfo) ∧
    (∃ gs2, supernova_reset midLoopGame2 = some gs2 ∧
      gs2.quantum_states = midLoopGame2.quantum_states ∧
      (∀ full_entry_id, get_entry_state gs2.quantum_states full_entry_id =
        get_entry_state midLoopGame2.quantum_states full_entry_id)) :=
  ⟨by decide,
   supernova_reset_preserves_quantum_states midLoopGame2 timberHearthInfo (by decide)⟩

end OuterWilds
